import Mathlib

/-!
Shallow embedding of `src/ml_service/app.py`, a stateless Flask stub service
with four POST handlers (background removal, pose detection, measurement
extraction, body-type classification) and a health probe.

Modelling conventions:
* Python floats are modelled as rationals (all literals in the source are
  exact decimals).
* `random.random()` is modelled as an explicit stream `r : ℕ → ℚ` of draws,
  consumed in the order the source calls `random.random()`; a valid stream
  satisfies `0 ≤ r n < 1`.
* A parsed JSON request body is a record whose optionally-present fields are
  `Option`s; `dict.get(k, d)` is `Option.getD`.
* A Python runtime fault raised inside a handler (KeyError, AttributeError,
  ZeroDivisionError) is `Except.error`; the web framework turns an unhandled
  fault into an HTTP 500 response and a normal return into HTTP 200
  (`flaskStatus`).
-/

namespace MLService

/-- A Python runtime fault that a handler can raise. -/
inductive PyErr where
  | keyError : String → PyErr
  | attributeError : String → PyErr
  | zeroDivisionError : PyErr
  deriving DecidableEq

/-- Flask maps an unhandled fault in a handler to HTTP 500 and a normal
return to HTTP 200. -/
def flaskStatus {α : Type} : Except PyErr α → Nat
  | .ok _ => 200
  | .error _ => 500

/-- A 4xx client-error status. -/
def isClientError (s : Nat) : Bool := 400 ≤ s && s < 500

/-! ### Python `str.replace`

`s.replace(old, new)` replaces every non-overlapping occurrence of `old`
in `s`, scanning left to right; the replacement text is not rescanned.
Structural recursion on a fuel argument initialised to the length of the
string, which every step strictly decreases while consuming at least one
character, keeps the definition computable. -/

def replaceAllAux (pat rep : List Char) : ℕ → List Char → List Char
  | _, [] => []
  | 0, s => s
  | fuel + 1, c :: rest =>
    if pat.isPrefixOf (c :: rest) && !pat.isEmpty then
      rep ++ replaceAllAux pat rep fuel ((c :: rest).drop pat.length)
    else
      c :: replaceAllAux pat rep fuel rest

/-- Python `s.replace(pat, rep)` on character lists. -/
def replaceAll (pat rep s : List Char) : List Char :=
  replaceAllAux pat rep s.length s

/-- Python `s.replace(pat, rep)` on strings. -/
def pyReplace (s pat rep : String) : String :=
  ⟨replaceAll pat.data rep.data s.data⟩

/-! ### Background removal (`remove_background`, app.py lines 14-34) -/

/-- A photo entry of the parsed request JSON; either key may be absent. -/
structure PhotoJson where
  url : Option String
  type : Option String
  deriving DecidableEq

/-- An output record of the background-removal handler. -/
structure ProcessedPhoto where
  url : String
  type : String
  maskQuality : ℚ
  deriving DecidableEq

/-- The url transform on line 27 of app.py:
`photo['url'].replace('.jpg', '_masked.jpg').replace('.png', '_masked.png')`. -/
def maskUrl (u : String) : String :=
  pyReplace (pyReplace u (".jpg") ("_masked.jpg")) (".png") ("_masked.png")

/-- One iteration of the loop on lines 25-30: `photo['url']` and
`photo['type']` raise `KeyError` when the key is absent. -/
def processPhoto (p : PhotoJson) : Except PyErr ProcessedPhoto :=
  match p.url with
  | none => .error (.keyError ("url"))
  | some u =>
    match p.type with
    | none => .error (.keyError ("type"))
    | some t => .ok ⟨maskUrl u, t, 0.95⟩

/-- The loop on lines 24-30: the first faulting photo aborts the handler. -/
def processPhotos : List PhotoJson → Except PyErr (List ProcessedPhoto)
  | [] => .ok []
  | p :: rest =>
    match processPhoto p with
    | .error e => .error e
    | .ok q =>
      match processPhotos rest with
      | .error e => .error e
      | .ok qs => .ok (q :: qs)

/-- The parsed body of a background-removal (or pose-detection) request. -/
structure BgRequest where
  photos : Option (List PhotoJson)

/-- Handler `remove_background`: `photos = data.get('photos', [])`, then the
processing loop. -/
def remove_background (req : BgRequest) : Except PyErr (List ProcessedPhoto) :=
  processPhotos (req.photos.getD [])

/-! ### Pose detection (`detect_pose`, app.py lines 36-75) -/

/-- The fixed list of 33 landmark names (lines 46-56). -/
def landmark_names : List String :=
  [("nose"), ("left_eye_inner"), ("left_eye"), ("left_eye_outer"),
   ("right_eye_inner"), ("right_eye"), ("right_eye_outer"),
   ("left_ear"), ("right_ear"), ("mouth_left"), ("mouth_right"),
   ("left_shoulder"), ("right_shoulder"), ("left_elbow"), ("right_elbow"),
   ("left_wrist"), ("right_wrist"), ("left_pinky"), ("right_pinky"),
   ("left_index"), ("right_index"), ("left_thumb"), ("right_thumb"),
   ("left_hip"), ("right_hip"), ("left_knee"), ("right_knee"),
   ("left_ankle"), ("right_ankle"), ("left_heel"), ("right_heel"),
   ("left_foot_index"), ("right_foot_index")]

/-- A landmark point. -/
structure Point where
  x : ℚ
  y : ℚ
  z : ℚ
  confidence : ℚ
  name : String
  deriving DecidableEq

/-- The body of the loop on lines 59-66 at enumeration pair `p = (i, name)`;
the three `random.random()` calls of iteration `i` are draws
`r (3*i)`, `r (3*i+1)`, `r (3*i+2)` (x, z, confidence, in source order). -/
def mkPoint (r : ℕ → ℚ) (p : ℕ × String) : Point :=
  ⟨0.3 + r (3 * p.1) * 0.4,
   ((p.1 : ℚ) / 33) * 0.9 + 0.05,
   r (3 * p.1 + 1) * 0.1 - 0.05,
   0.85 + r (3 * p.1 + 2) * 0.1,
   p.2⟩

/-- The landmark-set value returned by the handler (lines 68-71). -/
structure Landmarks where
  points : List Point
  averageConfidence : ℚ
  deriving DecidableEq

/-- Handler `detect_pose`: the photo list is only logged, never used;
`enumerate(landmark_names)` drives the loop; `averageConfidence` is the
literal 0.92. -/
def detect_pose (photos : List PhotoJson) (r : ℕ → ℚ) : Landmarks :=
  ⟨landmark_names.enum.map (mkPoint r), 0.92⟩

/-- The pose-detection route: `photos = data.get('photos', [])`; no fault
path exists after JSON parsing. -/
def detect_pose_handler (req : BgRequest) (r : ℕ → ℚ) : Except PyErr Landmarks :=
  .ok (detect_pose (req.photos.getD []) r)

/-! ### Measurement extraction (`extract_measurements`, app.py lines 77-111) -/

/-- The measurement record built on lines 88-100 (nine lengths, a fixed
confidence, and the echoed unit). -/
structure Measurements where
  height : ℚ
  shoulderWidth : ℚ
  chestCircumference : ℚ
  waistCircumference : ℚ
  hipCircumference : ℚ
  armLength : ℚ
  inseam : ℚ
  neckCircumference : ℚ
  thighCircumference : ℚ
  confidence : ℚ
  unit : String
  deriving DecidableEq

/-- Handler `extract_measurements`: `unit = data.get('unit', 'metric')`;
nine uniform draws in source order; when the unit is `'imperial'` each of
the nine length fields is divided by 2.54 afterwards (lines 103-107), and
`confidence` and `unit` are left untouched. -/
def extract_measurements (r : ℕ → ℚ) (unit : Option String) : Measurements :=
  let u := unit.getD ("metric")
  let base : Measurements :=
    ⟨170 + r 0 * 20, 40 + r 1 * 10, 90 + r 2 * 15, 75 + r 3 * 15,
     95 + r 4 * 15, 55 + r 5 * 10, 75 + r 6 * 10, 35 + r 7 * 5,
     50 + r 8 * 10, 0.89, u⟩
  if u = ("imperial") then
    ⟨base.height / 2.54, base.shoulderWidth / 2.54, base.chestCircumference / 2.54,
     base.waistCircumference / 2.54, base.hipCircumference / 2.54, base.armLength / 2.54,
     base.inseam / 2.54, base.neckCircumference / 2.54, base.thighCircumference / 2.54,
     base.confidence, base.unit⟩
  else base

/-- The parsed body of a measurement-extraction request: `landmarks` is
fetched by the handler (line 81) but its content is never used. -/
structure ExtractRequest where
  landmarks : Option Unit
  unit : Option String

/-- The measurement-extraction route: no fault path exists after JSON
parsing (`data.get` never raises and `landmarks` is unused). -/
def extract_handler (req : ExtractRequest) (r : ℕ → ℚ) : Except PyErr Measurements :=
  .ok (extract_measurements r req.unit)

/-! ### Body-type classification (`classify_body_type`, app.py lines 113-144) -/

/-- The measurement keys the classifier reads; any may be absent. -/
structure MeasurementsJson where
  waistCircumference : Option ℚ
  hipCircumference : Option ℚ
  shoulderWidth : Option ℚ
  deriving DecidableEq

/-- The classification result (lines 141-144). -/
structure BodyTypeResult where
  bodyType : String
  confidence : ℚ
  deriving DecidableEq

/-- The classification on lines 123-144: defaults 80/100/45, the two ratio
divisions (which raise `ZeroDivisionError` when `hip = 0`), then the
first-match ladder, and the fixed confidence 0.87. -/
def classify_body_type (m : MeasurementsJson) : Except PyErr BodyTypeResult :=
  let waist := m.waistCircumference.getD 80
  let hip := m.hipCircumference.getD 100
  let shoulder := m.shoulderWidth.getD 45
  if hip = 0 then .error .zeroDivisionError
  else
    let waist_to_hip := waist / hip
    let shoulder_to_hip := shoulder / hip
    let body_type :=
      if waist_to_hip < 0.75 then ("hourglass")
      else if shoulder_to_hip > 0.5 then ("inverted-triangle")
      else if waist_to_hip > 0.85 then ("rectangle")
      else ("pear")
    .ok ⟨body_type, 0.87⟩

/-- The parsed body of a classification request. -/
structure ClassifyRequest where
  measurements : Option MeasurementsJson

/-- The classification route: `measurements = data.get('measurements')`
yields `None` when the key is absent, and `None.get(...)` on line 123
raises `AttributeError`. -/
def classify_handler (req : ClassifyRequest) : Except PyErr BodyTypeResult :=
  match req.measurements with
  | none => .error (.attributeError ("get"))
  | some m => classify_body_type m

/-! ### Definitions taken from the spec's words (for refinement claims) -/

/-- The body-type decision procedure exactly as spec §4.5 words it, as a
function of the three (already defaulted) measurements. -/
def specBodyType (waist hip shoulder : ℚ) : String :=
  if waist / hip < 0.75 then ("hourglass")
  else if shoulder / hip > 0.5 then ("inverted-triangle")
  else if waist / hip > 0.85 then ("rectangle")
  else ("pear")

/-- The url transform as the claim words it: only the image-extension
SUFFIX is replaced by its masked variant. -/
def specSuffixMaskL (u : List Char) : List Char :=
  if (".jpg").data.isSuffixOf u then u.take (u.length - 4) ++ ("_masked.jpg").data
  else if (".png").data.isSuffixOf u then u.take (u.length - 4) ++ ("_masked.png").data
  else u

/-- String form of `specSuffixMaskL`. -/
def specSuffixMask (u : String) : String :=
  ⟨specSuffixMaskL u.data⟩

/-- The mean of the per-point confidences of a landmark list (what an honest
`averageConfidence` would be). -/
def averageOf (pts : List Point) : ℚ :=
  (pts.map Point.confidence).sum / pts.length

/-! ### Helper lemmas -/

/-- Dividing a positive rational by 2.54 changes it. -/
theorem div_254_ne_self (v : ℚ) (hv : 0 < v) : v / 2.54 ≠ v := by
  intro e
  rw [div_eq_iff (by norm_num : (2.54 : ℚ) ≠ 0)] at e
  nlinarith

/-- The imperial branch of `extract_measurements`, written out. -/
theorem extract_imperial_eq (r : ℕ → ℚ) :
    extract_measurements r (some ("imperial")) =
      ⟨(170 + r 0 * 20) / 2.54, (40 + r 1 * 10) / 2.54, (90 + r 2 * 15) / 2.54,
       (75 + r 3 * 15) / 2.54, (95 + r 4 * 15) / 2.54, (55 + r 5 * 10) / 2.54,
       (75 + r 6 * 10) / 2.54, (35 + r 7 * 5) / 2.54, (50 + r 8 * 10) / 2.54,
       0.89, ("imperial")⟩ := by
  simp only [extract_measurements, Option.getD, if_true]

/-- The non-imperial branch of `extract_measurements`, written out. -/
theorem extract_base_eq (r : ℕ → ℚ) (u : Option String)
    (hu : u.getD ("metric") ≠ ("imperial")) :
    extract_measurements r u =
      ⟨170 + r 0 * 20, 40 + r 1 * 10, 90 + r 2 * 15, 75 + r 3 * 15, 95 + r 4 * 15,
       55 + r 5 * 10, 75 + r 6 * 10, 35 + r 7 * 5, 50 + r 8 * 10,
       0.89, u.getD ("metric")⟩ := by
  simp only [extract_measurements, if_neg hu]

/-- The landmark list always has 33 entries. -/
theorem detect_pose_length (photos : List PhotoJson) (r : ℕ → ℚ) :
    (detect_pose photos r).points.length = 33 := by
  simp only [detect_pose, List.length_map, List.enum_length]
  rfl

/-- Indexing formula for the generated landmark list. -/
theorem detect_pose_get (photos : List PhotoJson) (r : ℕ → ℚ) (i : ℕ) (hi : i < 33) :
    (detect_pose photos r).points[i]? =
      some (mkPoint r (i, landmark_names.getD i (""))) := by
  simp only [detect_pose, List.getElem?_map, List.getElem?_enum]
  have : landmark_names[i]? = some (landmark_names.getD i ("")) := by
    rw [List.getD_eq_getElem?_getD]
    cases h : landmark_names[i]? with
    | none =>
      rw [List.getElem?_eq_none_iff] at h
      have : landmark_names.length = 33 := rfl
      omega
    | some v => rfl
  rw [this]
  rfl

/-! ### Claims -/

/-- C1: body-type classification is the deterministic first-match ladder of
spec §4.5 over the defaulted measurements (80/100/45), always returning
confidence 0.87, and the four spec test vectors hold. -/
theorem classify_body_type_spec :
    (∀ m : MeasurementsJson, m.hipCircumference.getD 100 ≠ 0 →
        classify_body_type m =
          .ok ⟨specBodyType (m.waistCircumference.getD 80) (m.hipCircumference.getD 100)
                (m.shoulderWidth.getD 45), 0.87⟩) ∧
    classify_body_type ⟨some 70, some 100, some 45⟩ = .ok ⟨("hourglass"), 0.87⟩ ∧
    classify_body_type ⟨some 90, some 100, some 60⟩ = .ok ⟨("inverted-triangle"), 0.87⟩ ∧
    classify_body_type ⟨some 90, some 100, some 40⟩ = .ok ⟨("rectangle"), 0.87⟩ ∧
    classify_body_type ⟨some 80, some 100, some 40⟩ = .ok ⟨("pear"), 0.87⟩ := by
  refine ⟨?_, ?_, ?_, ?_, ?_⟩
  · intro m hm
    simp only [classify_body_type, specBodyType, if_neg hm]
  · norm_num [classify_body_type]
  · norm_num [classify_body_type]
  · norm_num [classify_body_type]
  · norm_num [classify_body_type]

/-- Witness for C1 at the first spec vector. -/
theorem classify_body_type_spec_witness :
    classify_body_type ⟨some 70, some 100, some 45⟩ =
      .ok ⟨specBodyType 70 100 45, 0.87⟩ :=
  classify_body_type_spec.1 ⟨some 70, some 100, some 45⟩ (by norm_num)

/-- C2 counterexample: the url `"a.jpg.jpg"` ends in `.jpg`, but the handler
replaces every occurrence of the extension, not the final suffix, so the
output url is not the suffix-replaced url the claim describes. -/
theorem remove_background_not_suffix_only :
    remove_background ⟨some [⟨some ("a.jpg.jpg"), some ("front")⟩]⟩ =
      .ok [⟨("a_masked.jpg_masked.jpg"), ("front"), 0.95⟩] ∧
    specSuffixMask ("a.jpg.jpg") = ("a.jpg_masked.jpg") ∧
    ("a_masked.jpg_masked.jpg" : String) ≠ ("a.jpg_masked.jpg") :=
  ⟨rfl, by decide, by decide⟩

/-- C2 amended: for photos whose `url` and `type` keys are present, the
handler returns one record per photo, in order, with `type` preserved,
`maskQuality` 0.95, and `url` obtained by replacing EVERY occurrence of
`.jpg` by `_masked.jpg` and then every occurrence of `.png` by
`_masked.png` (which agrees with suffix replacement only when the
extension occurs once, at the end). -/
theorem remove_background_shape (photos : List PhotoJson)
    (h : ∀ p ∈ photos, p.url ≠ none ∧ p.type ≠ none) :
    remove_background ⟨some photos⟩ =
      .ok (photos.map (fun p => ⟨maskUrl (p.url.getD ("")), p.type.getD (""), 0.95⟩)) := by
  induction photos with
  | nil => rfl
  | cons a rest ih =>
    obtain ⟨hu, ht⟩ := h a (List.mem_cons_self a rest)
    cases hau : a.url with
    | none => exact absurd hau hu
    | some u =>
      cases hat : a.type with
      | none => exact absurd hat ht
      | some t =>
        have ihr : processPhotos rest =
            .ok (rest.map (fun p => ⟨maskUrl (p.url.getD ("")), p.type.getD (""), 0.95⟩)) :=
          ih (fun p hp => h p (List.mem_cons_of_mem a hp))
        show processPhotos (a :: rest) = _
        simp only [processPhotos, processPhoto, hau, hat]
        rw [ihr]
        simp [hau, hat]

/-- Witness for C2 (amended) on a one-photo list. -/
theorem remove_background_shape_witness :
    remove_background ⟨some [⟨some ("x.jpg"), some ("front")⟩]⟩ =
      .ok [⟨maskUrl ("x.jpg"), ("front"), 0.95⟩] :=
  remove_background_shape [⟨some ("x.jpg"), some ("front")⟩] (by decide)

/-- C3: for the same draw stream, the imperial result has each of the nine
length fields equal to the metric value divided by 2.54, every converted
field differs from its metric counterpart, and `confidence` (0.89) and
`unit` are not divided. -/
theorem extract_measurements_imperial (r : ℕ → ℚ) (h : ∀ n, 0 ≤ r n ∧ r n < 1) :
    ((extract_measurements r (some ("imperial"))).height =
        (extract_measurements r (some ("metric"))).height / 2.54 ∧
     (extract_measurements r (some ("imperial"))).shoulderWidth =
        (extract_measurements r (some ("metric"))).shoulderWidth / 2.54 ∧
     (extract_measurements r (some ("imperial"))).chestCircumference =
        (extract_measurements r (some ("metric"))).chestCircumference / 2.54 ∧
     (extract_measurements r (some ("imperial"))).waistCircumference =
        (extract_measurements r (some ("metric"))).waistCircumference / 2.54 ∧
     (extract_measurements r (some ("imperial"))).hipCircumference =
        (extract_measurements r (some ("metric"))).hipCircumference / 2.54 ∧
     (extract_measurements r (some ("imperial"))).armLength =
        (extract_measurements r (some ("metric"))).armLength / 2.54 ∧
     (extract_measurements r (some ("imperial"))).inseam =
        (extract_measurements r (some ("metric"))).inseam / 2.54 ∧
     (extract_measurements r (some ("imperial"))).neckCircumference =
        (extract_measurements r (some ("metric"))).neckCircumference / 2.54 ∧
     (extract_measurements r (some ("imperial"))).thighCircumference =
        (extract_measurements r (some ("metric"))).thighCircumference / 2.54) ∧
    ((extract_measurements r (some ("imperial"))).height ≠
        (extract_measurements r (some ("metric"))).height ∧
     (extract_measurements r (some ("imperial"))).shoulderWidth ≠
        (extract_measurements r (some ("metric"))).shoulderWidth ∧
     (extract_measurements r (some ("imperial"))).chestCircumference ≠
        (extract_measurements r (some ("metric"))).chestCircumference ∧
     (extract_measurements r (some ("imperial"))).waistCircumference ≠
        (extract_measurements r (some ("metric"))).waistCircumference ∧
     (extract_measurements r (some ("imperial"))).hipCircumference ≠
        (extract_measurements r (some ("metric"))).hipCircumference ∧
     (extract_measurements r (some ("imperial"))).armLength ≠
        (extract_measurements r (some ("metric"))).armLength ∧
     (extract_measurements r (some ("imperial"))).inseam ≠
        (extract_measurements r (some ("metric"))).inseam ∧
     (extract_measurements r (some ("imperial"))).neckCircumference ≠
        (extract_measurements r (some ("metric"))).neckCircumference ∧
     (extract_measurements r (some ("imperial"))).thighCircumference ≠
        (extract_measurements r (some ("metric"))).thighCircumference) ∧
    (extract_measurements r (some ("imperial"))).confidence = 0.89 ∧
    (extract_measurements r (some ("imperial"))).unit = ("imperial") := by
  have e1 := extract_imperial_eq r
  have e2 := extract_base_eq r (some ("metric")) (by decide)
  rw [e1, e2]
  dsimp only
  refine ⟨⟨rfl, rfl, rfl, rfl, rfl, rfl, rfl, rfl, rfl⟩,
    ⟨?_, ?_, ?_, ?_, ?_, ?_, ?_, ?_, ?_⟩, rfl, rfl⟩
  · exact div_254_ne_self _ (by linarith [(h 0).1])
  · exact div_254_ne_self _ (by linarith [(h 1).1])
  · exact div_254_ne_self _ (by linarith [(h 2).1])
  · exact div_254_ne_self _ (by linarith [(h 3).1])
  · exact div_254_ne_self _ (by linarith [(h 4).1])
  · exact div_254_ne_self _ (by linarith [(h 5).1])
  · exact div_254_ne_self _ (by linarith [(h 6).1])
  · exact div_254_ne_self _ (by linarith [(h 7).1])
  · exact div_254_ne_self _ (by linarith [(h 8).1])

/-- Witness for C3 at the all-zero stream. -/
theorem extract_measurements_imperial_witness :
    (extract_measurements (fun _ => 0) (some ("imperial"))).height =
      (extract_measurements (fun _ => 0) (some ("metric"))).height / 2.54 :=
  (extract_measurements_imperial (fun _ => 0)
    (fun _ => ⟨le_refl 0, by norm_num⟩)).1.1

/-- C4: for every photo list and every valid draw stream, pose detection
returns exactly 33 points; point `i` carries the `i`-th fixed landmark name,
has `y = (i/33)*0.9 + 0.05`, `x ∈ [0.3, 0.7]`, `z ∈ [-0.05, 0.05]` and
confidence in `[0.85, 0.95]`; and `y` is strictly increasing in the index. -/
theorem detect_pose_contract (photos : List PhotoJson) (r : ℕ → ℚ)
    (h : ∀ n, 0 ≤ r n ∧ r n < 1) :
    (detect_pose photos r).points.length = 33 ∧
    (∀ i, i < 33 → ∃ p : Point,
      (detect_pose photos r).points[i]? = some p ∧
      p.name = landmark_names.getD i ("") ∧
      p.y = ((i : ℚ) / 33) * 0.9 + 0.05 ∧
      0.3 ≤ p.x ∧ p.x ≤ 0.7 ∧
      -0.05 ≤ p.z ∧ p.z ≤ 0.05 ∧
      0.85 ≤ p.confidence ∧ p.confidence ≤ 0.95) ∧
    (∀ (i j : ℕ) (p q : Point), i < j →
      (detect_pose photos r).points[i]? = some p →
      (detect_pose photos r).points[j]? = some q → p.y < q.y) := by
  refine ⟨detect_pose_length photos r, ?_, ?_⟩
  · intro i hi
    obtain ⟨hx0, hx1⟩ := h (3 * i)
    obtain ⟨hz0, hz1⟩ := h (3 * i + 1)
    obtain ⟨hc0, hc1⟩ := h (3 * i + 2)
    exact ⟨mkPoint r (i, landmark_names.getD i ("")), detect_pose_get photos r i hi,
      rfl, rfl,
      by dsimp only [mkPoint]; linarith, by dsimp only [mkPoint]; linarith,
      by dsimp only [mkPoint]; linarith, by dsimp only [mkPoint]; linarith,
      by dsimp only [mkPoint]; linarith, by dsimp only [mkPoint]; linarith⟩
  · intro i j p q hij hip hjq
    have hj : j < 33 := by
      by_contra hj
      have hnone : (detect_pose photos r).points[j]? = none := by
        rw [List.getElem?_eq_none_iff, detect_pose_length photos r]
        omega
      rw [hnone] at hjq
      exact Option.noConfusion hjq
    have hi : i < 33 := lt_trans hij hj
    rw [detect_pose_get photos r i hi] at hip
    rw [detect_pose_get photos r j hj] at hjq
    cases Option.some.inj hip
    cases Option.some.inj hjq
    dsimp only [mkPoint]
    have hij' : (i : ℚ) < j := by exact_mod_cast hij
    linarith

/-- Witness for C4: the empty photo list and the all-zero stream. -/
theorem detect_pose_contract_witness :
    (detect_pose [] (fun _ => 0)).points.length = 33 :=
  (detect_pose_contract [] (fun _ => 0) (fun _ => ⟨le_refl 0, by norm_num⟩)).1

/-- C5 counterexample: a background-removal request whose photo entry lacks
`url` makes the handler raise an unhandled `KeyError`, which the framework
turns into HTTP 500 — a server error, not the claimed 4xx client error. -/
theorem remove_background_malformed_not_4xx :
    flaskStatus (remove_background ⟨some [⟨none, some ("front")⟩]⟩) = 500 ∧
    isClientError (flaskStatus (remove_background ⟨some [⟨none, some ("front")⟩]⟩)) = false :=
  ⟨rfl, rfl⟩

/-- C5 amended: a malformed photo entry (missing `url` or `type`) makes the
handler raise an unhandled fault, surfaced by the framework as a generic
HTTP 500 server error rather than a structured 4xx. -/
theorem remove_background_malformed (photos : List PhotoJson)
    (h : ∃ p ∈ photos, p.url = none ∨ p.type = none) :
    flaskStatus (remove_background ⟨some photos⟩) = 500 := by
  induction photos with
  | nil => simp at h
  | cons a rest ih =>
    rcases h with ⟨p, hp, hbad⟩
    rcases List.mem_cons.mp hp with rfl | hmem
    · show flaskStatus (processPhotos (p :: rest)) = 500
      rcases hbad with h1 | h1
      · simp only [processPhotos, processPhoto, h1]
        rfl
      · cases hu : p.url with
        | none => simp only [processPhotos, processPhoto, hu]; rfl
        | some u => simp only [processPhotos, processPhoto, hu, h1]; rfl
    · show flaskStatus (processPhotos (a :: rest)) = 500
      have ihr : flaskStatus (processPhotos rest) = 500 := ih ⟨p, hmem, hbad⟩
      cases hpa : processPhoto a with
      | error e => simp only [processPhotos, hpa]; rfl
      | ok q =>
        cases hrest : processPhotos rest with
        | error e => simp only [processPhotos, hpa, hrest]; rfl
        | ok qs =>
          rw [hrest] at ihr
          exact absurd ihr (by simp [flaskStatus])

/-- Witness for C5 (amended) on a one-photo list missing `url`. -/
theorem remove_background_malformed_witness :
    flaskStatus (remove_background ⟨some [⟨none, some ("front")⟩]⟩) = 500 :=
  remove_background_malformed [⟨none, some ("front")⟩]
    ⟨⟨none, some ("front")⟩, by simp, Or.inl rfl⟩

/-- C6 counterexample: the well-formed measurement object with
`hipCircumference = 0` makes the divisions on lines 127-128 raise
`ZeroDivisionError`, so classification does not succeed there. -/
theorem classify_zero_hip_faults :
    classify_body_type ⟨none, some 0, none⟩ = .error .zeroDivisionError := by
  norm_num [classify_body_type]

/-- C6 amended: classification succeeds (HTTP 200) for every measurement
object whose `hipCircumference`, after the default 100, is nonzero; with a
zero hip the divisions fault. -/
theorem classify_body_type_total (m : MeasurementsJson)
    (h : m.hipCircumference.getD 100 ≠ 0) :
    flaskStatus (classify_body_type m) = 200 := by
  simp only [classify_body_type, if_neg h]
  rfl

/-- Witness for C6 (amended): the empty measurement object. -/
theorem classify_body_type_total_witness :
    flaskStatus (classify_body_type ⟨none, none, none⟩) = 200 :=
  classify_body_type_total ⟨none, none, none⟩ (by norm_num)

/-- C7 counterexample: a background-removal request with no `photos` key
does not fault — `data.get('photos', [])` defaults to the empty list and
the handler succeeds with HTTP 200 and an empty output list. -/
theorem missing_photos_succeeds :
    remove_background ⟨none⟩ = .ok [] ∧
    flaskStatus (remove_background ⟨none⟩) = 200 :=
  ⟨rfl, rfl⟩

/-- C7 amended: only a missing `measurements` field faults (an unhandled
`AttributeError` on `None`, surfaced as HTTP 500); missing `photos`
(background removal, pose detection) and missing `landmarks` (measurement
extraction) are defaulted or unused and those handlers succeed. -/
theorem missing_required_fields (r : ℕ → ℚ) :
    flaskStatus (classify_handler ⟨none⟩) = 500 ∧
    remove_background ⟨none⟩ = .ok [] ∧
    flaskStatus (remove_background ⟨none⟩) = 200 ∧
    flaskStatus (detect_pose_handler ⟨none⟩ r) = 200 ∧
    flaskStatus (extract_handler ⟨none, none⟩ r) = 200 :=
  ⟨rfl, rfl, rfl, rfl, rfl⟩

/-- C8 counterexample: an imperial request leaves the metric ranges — at the
all-zero stream the imperial height is 170/2.54, far below 170. -/
theorem extract_imperial_out_of_range :
    ¬ (170 ≤ (extract_measurements (fun _ => 0) (some ("imperial"))).height ∧
       (extract_measurements (fun _ => 0) (some ("imperial"))).height ≤ 190) := by
  norm_num [extract_measurements]

/-- C8 amended: for every request whose (defaulted) unit is not `imperial`
and every valid draw stream, the nine fields lie in their metric ranges,
`confidence` is 0.89, and `unit` echoes the request's unit flag (default
`metric`). -/
theorem extract_measurements_ranges (u : Option String) (r : ℕ → ℚ)
    (h : ∀ n, 0 ≤ r n ∧ r n < 1) (hu : u.getD ("metric") ≠ ("imperial")) :
    (170 ≤ (extract_measurements r u).height ∧ (extract_measurements r u).height ≤ 190) ∧
    (40 ≤ (extract_measurements r u).shoulderWidth ∧
      (extract_measurements r u).shoulderWidth ≤ 50) ∧
    (90 ≤ (extract_measurements r u).chestCircumference ∧
      (extract_measurements r u).chestCircumference ≤ 105) ∧
    (75 ≤ (extract_measurements r u).waistCircumference ∧
      (extract_measurements r u).waistCircumference ≤ 90) ∧
    (95 ≤ (extract_measurements r u).hipCircumference ∧
      (extract_measurements r u).hipCircumference ≤ 110) ∧
    (55 ≤ (extract_measurements r u).armLength ∧ (extract_measurements r u).armLength ≤ 65) ∧
    (75 ≤ (extract_measurements r u).inseam ∧ (extract_measurements r u).inseam ≤ 85) ∧
    (35 ≤ (extract_measurements r u).neckCircumference ∧
      (extract_measurements r u).neckCircumference ≤ 40) ∧
    (50 ≤ (extract_measurements r u).thighCircumference ∧
      (extract_measurements r u).thighCircumference ≤ 60) ∧
    (extract_measurements r u).confidence = 0.89 ∧
    (extract_measurements r u).unit = u.getD ("metric") := by
  rw [extract_base_eq r u hu]
  dsimp only
  obtain ⟨h0a, h0b⟩ := h 0
  obtain ⟨h1a, h1b⟩ := h 1
  obtain ⟨h2a, h2b⟩ := h 2
  obtain ⟨h3a, h3b⟩ := h 3
  obtain ⟨h4a, h4b⟩ := h 4
  obtain ⟨h5a, h5b⟩ := h 5
  obtain ⟨h6a, h6b⟩ := h 6
  obtain ⟨h7a, h7b⟩ := h 7
  obtain ⟨h8a, h8b⟩ := h 8
  exact ⟨⟨by linarith, by linarith⟩, ⟨by linarith, by linarith⟩, ⟨by linarith, by linarith⟩,
    ⟨by linarith, by linarith⟩, ⟨by linarith, by linarith⟩, ⟨by linarith, by linarith⟩,
    ⟨by linarith, by linarith⟩, ⟨by linarith, by linarith⟩, ⟨by linarith, by linarith⟩,
    rfl, rfl⟩

/-- Witness for C8 (amended): a request with no unit flag, all-zero stream. -/
theorem extract_measurements_ranges_witness :
    170 ≤ (extract_measurements (fun _ => 0) none).height :=
  (extract_measurements_ranges none (fun _ => 0)
    (fun _ => ⟨le_refl 0, by norm_num⟩) (by decide)).1.1

/-- C9: the aggregate `averageConfidence` returned by pose detection is the
fixed constant 0.92 for every input, and it is not the mean of the 33
per-point confidences: at the all-zero stream that mean is 0.85. -/
theorem averageConfidence_constant :
    (∀ (photos : List PhotoJson) (r : ℕ → ℚ),
      (detect_pose photos r).averageConfidence = 0.92) ∧
    (∃ (photos : List PhotoJson) (r : ℕ → ℚ),
      averageOf ((detect_pose photos r).points) ≠
        (detect_pose photos r).averageConfidence) := by
  refine ⟨fun photos r => rfl, [], fun _ => 0, ?_⟩
  have hmean : averageOf ((detect_pose [] (fun _ => 0)).points) = 0.85 := by
    norm_num [averageOf, detect_pose, landmark_names, mkPoint, List.enum, List.enumFrom]
  rw [hmean]
  norm_num [detect_pose]

/-- C10: with the randomness source made explicit, two valid draw streams
produce different pose outputs and different measurement outputs for the
same request, so repeated identical calls can disagree. -/
theorem handlers_nondeterministic :
    ∃ r1 r2 : ℕ → ℚ,
      (∀ n, (0 ≤ r1 n ∧ r1 n < 1) ∧ (0 ≤ r2 n ∧ r2 n < 1)) ∧
      (detect_pose [] r1).points ≠ (detect_pose [] r2).points ∧
      extract_measurements r1 none ≠ extract_measurements r2 none := by
  refine ⟨fun _ => 0, fun _ => 1/2,
    fun n => ⟨⟨le_refl 0, by norm_num⟩, ⟨by norm_num, by norm_num⟩⟩, ?_, ?_⟩
  · intro he
    have h0 := congrArg (fun l => l[0]?) he
    simp only [detect_pose, List.getElem?_map, List.getElem?_enum] at h0
    have hx : (0.3 + (0 : ℚ) * 0.4) = 0.3 + (1 / 2 : ℚ) * 0.4 := by
      have := congrArg (Option.map Point.x) h0
      simpa [mkPoint, landmark_names] using this
    norm_num at hx
  · intro he
    have hh := congrArg Measurements.height he
    rw [extract_base_eq (fun _ => 0) none (by decide),
        extract_base_eq (fun _ => 1 / 2) none (by decide)] at hh
    norm_num at hh

end MLService
